import Mathlib

/-!
Verification development for the worker-side load-test engine:
shallow embedding of the DSL compiler (`Backend/shared/DSL/main.py`),
the workload generator (`modules/workload_generator.py`), the error
classifier / degradation policy and step/journey executors
(`modules/journey_executor.py`), and the open-model arrival loop and
result aggregation (`services/test-worker/main.py`).

Machine integers are modelled as `Int`/`Nat` (Python ints are unbounded),
Python floats as `ℚ`, random draws as explicit oracle parameters, and
Python exceptions as `Except`/`Option` results.
-/

/-- Error categories, from `class ErrorCategory(Enum)` in `journey_executor.py`. -/
inductive ErrorCategory where
  | timeout
  | network
  | http_error
  | auth_error
  | server_error
  | unknown
deriving DecidableEq, Repr

/-- Error severities, from `class ErrorSeverity(Enum)` in `journey_executor.py`. -/
inductive ErrorSeverity where
  | low
  | medium
  | high
  | critical
deriving DecidableEq, Repr

/-- Degradation strategies, from `class DegradationStrategy(Enum)` in `journey_executor.py`. -/
inductive DegradationStrategy where
  | skip_step
  | fallback_endpoint
  | continue_journey
  | terminate_journey
deriving DecidableEq, Repr

/-- Exception kinds distinguished by the `isinstance` chain in `categorize_error`
    and by the `except` clauses of the executors: `asyncio.TimeoutError`,
    `aiohttp.ClientConnectorError`, `aiohttp.ClientError`, and any other
    exception. -/
inductive PyExc where
  | timeoutError
  | clientConnectorError
  | clientError
  | otherError
deriving DecidableEq, Repr

/-- Embedding of `categorize_error(exception, status_code)` (`journey_executor.py`
    lines 25-42). The Python function has no final `return`, so control can fall
    off the end (when the `isinstance` checks fail and `status_code` is truthy
    but matches none of the status ranges), in which case Python returns `None`:
    that is the `none` result here. `elif status_code:` is a truthiness test, so
    a status of `0` (or `None`) takes the `else` branch `(unknown, low)`. -/
def categorize_error (exc : Option PyExc) (status_code : Option Int) :
    Option (ErrorCategory × ErrorSeverity) :=
  match exc with
  | some .timeoutError => some (.timeout, .medium)
  | some .clientConnectorError => some (.network, .high)
  | some .clientError => some (.network, .medium)
  | _ =>
    match status_code with
    | some s =>
      if s ≠ 0 then
        if s = 401 then some (.auth_error, .high)
        else if s = 403 then some (.auth_error, .high)
        else if 400 ≤ s ∧ s < 500 then some (.http_error, .medium)
        else if 500 ≤ s ∧ s < 600 then some (.server_error, .high)
        else none
      else some (.unknown, .low)
    | none => some (.unknown, .low)

/-- An error record, from `create_error_record` in `journey_executor.py`.
    The wall-clock `timestamp` field (an isoformat string from
    `datetime.now()`) is not modelled: no claim observes it. -/
structure ErrorRecord where
  category : ErrorCategory
  severity : ErrorSeverity
  endpoint : String
  user_id : Nat
  attempt : Nat
  error_message : String
  retry_eligible : Bool
deriving DecidableEq, Repr

/-- Embedding of `create_error_record` (`journey_executor.py` lines 44-56):
    `retry_eligible` is derived as
    `category in [TIMEOUT, NETWORK, SERVER_ERROR]`. -/
def create_error_record (category : ErrorCategory) (severity : ErrorSeverity)
    (endpoint : String) (user_id : Nat) (attempt : Nat) (error_msg : String) :
    ErrorRecord :=
  { category := category
    severity := severity
    endpoint := endpoint
    user_id := user_id
    attempt := attempt
    error_message := error_msg
    retry_eligible :=
      category = .timeout ∨ category = .network ∨ category = .server_error }

/-- Embedding of `determine_degradation_strategy(category, severity, attempt,
    max_attempts)` (`journey_executor.py` lines 64-76). Both counters are
    natural numbers: `attempt` ranges over the loop indices `0..retry_attempts`
    of the callers. -/
def determine_degradation_strategy (category : ErrorCategory)
    (severity : ErrorSeverity) (attempt max_attempts : Nat) :
    DegradationStrategy :=
  if attempt < max_attempts then .continue_journey
  else if category = .auth_error then .terminate_journey
  else if category = .http_error ∧ severity = .high then .skip_step
  else if category = .timeout ∨ category = .network then .fallback_endpoint
  else .continue_journey

/-! ## DSL compiler (`Backend/shared/DSL/main.py`)

    String primitives are implemented over character lists by structural
    recursion (rather than through the standard library's position-based
    string functions) so that every parse evaluates inside the kernel;
    each is a direct model of the Python operation named in its comment. -/

/-- Model of Python `str.strip()`: drop whitespace from both ends (ASCII
    whitespace; the scripts in scope contain no exotic unicode spacing). -/
def pyStrip (s : String) : String :=
  String.mk (((s.toList.dropWhile Char.isWhitespace).reverse.dropWhile
    Char.isWhitespace).reverse)

/-- Character-list core of `str.startswith`. -/
def isPrefixChars : List Char → List Char → Bool
  | [], _ => true
  | _ :: _, [] => false
  | p :: ps, c :: cs => p == c && isPrefixChars ps cs

/-- Model of Python `s.startswith(pre)`. -/
def pyStartsWith (s pre : String) : Bool := isPrefixChars pre.toList s.toList

/-- Accumulator loop for `splitChar`. -/
def splitCharAux (sep : Char) : List Char → List Char → List String
  | [], acc => [String.mk acc.reverse]
  | c :: cs, acc =>
    if c == sep then String.mk acc.reverse :: splitCharAux sep cs []
    else splitCharAux sep cs (c :: acc)

/-- Model of Python `s.split(sep)` for a one-character separator (the parser
    only ever splits on `":"`, `","` and line breaks). `"".split(sep)`
    differs (Python gives `[""]` too for `str.split` with an explicit
    separator, so they agree). -/
def splitChar (sep : Char) (s : String) : List String :=
  splitCharAux sep s.toList []

/-- Join with a one-character separator (inverse of `splitChar`, used to model
    `split(sep, maxsplit=1)` as split-then-rejoin). -/
def joinChar (sep : Char) : List String → String
  | [] => ""
  | [x] => x
  | x :: xs => x ++ String.mk [sep] ++ joinChar sep xs

/-- Model of Python `str.upper()` (ASCII letters, which is all `\w` method
    names contain). -/
def pyToUpper (s : String) : String := String.mk (s.toList.map Char.toUpper)

/-- Model of Python `str.splitlines()`. This splits on the newline character;
    Python additionally treats `\r`, `\r\n` and other unicode line boundaries
    as separators and drops a trailing terminator (the resulting extra empty
    entry here is skipped by the parser's blank-line check, so the two agree
    on every parse). -/
def pySplitlines (s : String) : List String := splitChar '\n' s

/-- Digits of a Python `int()` literal: a nonempty run of ASCII digits.
    (Python's `int()` also allows underscores between digits and unicode
    digits; such scripts would take the `except` default path here, which no
    claim exercises.) -/
def digitsToNat? (cs : List Char) : Option Nat :=
  if cs ≠ [] ∧ cs.all Char.isDigit then
    some (cs.foldl (fun n c => n * 10 + (c.toNat - 48)) 0)
  else none

/-- Model of Python `int(s)` as used by the parser: surrounding whitespace is
    stripped, then an optional sign followed by digits. A `none` result models
    the `ValueError` that each call site catches. -/
def pyInt? (s : String) : Option Int :=
  match (pyStrip s).toList with
  | '-' :: cs => (digitsToNat? cs).map (fun n => -(n : Int))
  | '+' :: cs => (digitsToNat? cs).map (fun n => (n : Int))
  | cs => (digitsToNat? cs).map (fun n => (n : Int))

/-- Model of Python `float(s)` as used by the parser: optional sign, then
    digits with at most one decimal point and at least one digit (covers
    `"1"`, `"1.5"`, `"1."`, `".5"`). Exponent/`inf`/`nan` forms are not
    modelled and take the `except` default path, which no claim exercises. -/
def pyFloat? (s : String) : Option ℚ :=
  let core : List Char → Option ℚ := fun cs =>
    let intPart := cs.takeWhile Char.isDigit
    match cs.dropWhile Char.isDigit with
    | [] =>
      (digitsToNat? intPart).map (fun n => (n : ℚ))
    | '.' :: frac =>
      if frac.all Char.isDigit ∧ (intPart ≠ [] ∨ frac ≠ []) then
        let ip : Nat := (digitsToNat? intPart).getD 0
        let fp : Nat := (digitsToNat? frac).getD 0
        some ((ip : ℚ) + (fp : ℚ) / ((10 : ℚ) ^ frac.length))
      else none
    | _ => none
  match (pyStrip s).toList with
  | '-' :: cs => (core cs).map (fun q => -q)
  | '+' :: cs => core cs
  | cs => core cs

/-- Pattern-specific numeric configuration: the `pattern_config` dict built by
    `parse_dsl`. Each field is `none` when the corresponding key was never set
    (the generator then applies its own `.get` default, which for `base_delay`
    differs between patterns). -/
structure PatternConfig where
  peak_hours : Option (List Int) := none
  off_peak_multiplier : Option ℚ := none
  base_delay : Option ℚ := none
  spike_interval : Option Int := none
  spike_duration : Option Int := none
  spike_intensity : Option ℚ := none
  start_delay : Option ℚ := none
  end_delay : Option ℚ := none
  ramp_steps : Option Int := none
deriving DecidableEq, Repr

/-- One DSL step, the dict `{"method": ..., "path": ..., "payload": ...}` built
    by `parse_dsl`. `payload` records the raw matched payload text; the Python
    code stores `json.loads` of it (or `None` when that raises) — no claim
    observes payload contents. `fallback_endpoint` models the key of the same
    name read by the step executor via `.get`; `parse_dsl` never produces it,
    so parsed steps always carry `none`. -/
structure Step where
  method : String
  path : String
  payload : Option String
  fallback_endpoint : Option String := none
deriving DecidableEq, Repr

/-- One named journey, the dict `{"name", "steps", "repeat", "condition"}`
    built by `parse_dsl` (`repeat` is named `repeatCount` here). -/
structure Journey where
  name : String
  steps : List Step
  repeatCount : Int
  condition : Option String
deriving DecidableEq, Repr

/-- The dict returned by `parse_dsl`. The empty-script early return
    (`main.py` lines 6-13) omits the `"pattern_config"` key, hence the
    `Option`: `none` models the missing key. -/
structure DslPlan where
  num_users : Int
  test_duration : Int
  workload_pattern : String
  pattern_config : Option PatternConfig
  steps : List Step
  user_journey : List Journey
deriving DecidableEq, Repr

/-- Value `line.split(":")[1].strip()`: the text between the first and second
    colon, stripped. The call sites guard with `startswith("<key>:")`, so the
    index-1 element always exists; `getD` returns `""` only in the impossible
    missing case (which the surrounding `except` would also turn into the
    default). -/
def colonField1 (line : String) : String :=
  pyStrip ((splitChar ':' line).getD 1 "")

/-- Value `line.split(":", 1)[1]`: everything after the first colon. -/
def pySplitOnce (line : String) : String :=
  match splitChar ':' line with
  | [] => ""
  | [_] => ""
  | _ :: rest => joinChar ':' rest

/-- Python's `\w` word character (ASCII fragment: letters, digits, underscore). -/
def isWordChar (c : Char) : Bool := c.isAlphanum || c = '_'

/-- Index of the last occurrence of `c` in `l`, for the greedy `.*` of the
    step-line regex. -/
def lastIdxOf (c : Char) (l : List Char) : Option Nat :=
  match l.reverse.findIdx? (· = c) with
  | some j => some (l.length - 1 - j)
  | none => none

/-- Direct implementation of the step-line regex
    `re.match(r"-\s*(\w+)\s+([^\s\x7b]+)\s*(\x7b.*\x7d)?", line)`
    (`main.py` line 114): a dash, optional whitespace, a nonempty word
    (method), mandatory whitespace, a nonempty run of non-space non-brace
    characters (path), optional whitespace, then an optional payload group
    running from an opening brace to the last closing brace of the line
    (greedy `.*`); trailing unmatched text is ignored, exactly as `re.match`
    ignores it. Returns `(method, path, payload?)`. -/
def parseStepLine (line : String) : Option (String × String × Option String) :=
  match line.toList with
  | '-' :: rest0 =>
    let rest1 := rest0.dropWhile Char.isWhitespace
    let meth := rest1.takeWhile isWordChar
    let rest2 := rest1.dropWhile isWordChar
    if meth = [] then none
    else if rest2.takeWhile Char.isWhitespace = [] then none
    else
      let rest3 := rest2.dropWhile Char.isWhitespace
      let path := rest3.takeWhile (fun c => !c.isWhitespace && c ≠ '{')
      if path = [] then none
      else
        let rest4 := (rest3.dropWhile (fun c => !c.isWhitespace && c ≠ '{')).dropWhile
          Char.isWhitespace
        let payload : Option String :=
          match rest4 with
          | '{' :: _ =>
            match lastIdxOf '}' rest4 with
            | some i => some (String.mk (rest4.take (i + 1)))
            | none => none
          | _ => none
        some (String.mk meth, String.mk path, payload)
  | _ => none

/-- Mutable state of `parse_dsl`'s line loop. `finished` holds journeys that
    can no longer be mutated; `current` is the journey opened by the most
    recent `journey:` line (Python keeps a live reference into the
    `user_journey` list; here the current journey is appended on close, which
    yields the same final list). -/
structure ParseState where
  num_users : Int := 1
  test_duration : Int := 60
  workload_pattern : String := "steady"
  pattern_config : PatternConfig := {}
  steps : List Step := []
  finished : List Journey := []
  current : Option Journey := none
deriving Repr

/-- Handler for `users: <int>` (`main.py` lines 31-35): the `except` branch
    assigns the default 1. -/
def handle_users (st : ParseState) (line : String) : ParseState :=
  { st with num_users := (pyInt? (colonField1 line)).getD 1 }

/-- Handler for `duration: <int>` (lines 36-40). -/
def handle_duration (st : ParseState) (line : String) : ParseState :=
  { st with test_duration := (pyInt? (colonField1 line)).getD 60 }

/-- Handler for `pattern: <name>` (lines 41-44): unrecognized names leave the
    current pattern unchanged. -/
def handle_pattern (st : ParseState) (line : String) : ParseState :=
  if colonField1 line = "burst" ∨ colonField1 line = "steady" ∨
      colonField1 line = "ramp_up" ∨ colonField1 line = "daily_cycle" ∨
      colonField1 line = "spike" ∨ colonField1 line = "gradual_ramp" then
    { st with workload_pattern := colonField1 line }
  else st

/-- Handler for `peak_hours: <csv ints>` (lines 45-50): any conversion
    failure yields the default list. -/
def handle_peak_hours (st : ParseState) (line : String) : ParseState :=
  let hours := (splitChar ',' (pyStrip (pySplitOnce line))).mapM (fun h => pyInt? h)
  { st with pattern_config :=
      { st.pattern_config with
        peak_hours := some (hours.getD [9, 10, 11, 14, 15, 16]) } }

/-- Handler for `off_peak_multiplier: <float>` (lines 51-55). -/
def handle_off_peak_multiplier (st : ParseState) (line : String) : ParseState :=
  { st with pattern_config :=
      { st.pattern_config with
        off_peak_multiplier := some ((pyFloat? (colonField1 line)).getD (3/10)) } }

/-- Handler for `base_delay: <float>` (lines 56-60). -/
def handle_base_delay (st : ParseState) (line : String) : ParseState :=
  { st with pattern_config :=
      { st.pattern_config with
        base_delay := some ((pyFloat? (colonField1 line)).getD 1) } }

/-- Handler for `spike_interval: <int>` (lines 61-65). -/
def handle_spike_interval (st : ParseState) (line : String) : ParseState :=
  { st with pattern_config :=
      { st.pattern_config with
        spike_interval := some ((pyInt? (colonField1 line)).getD 120) } }

/-- Handler for `spike_duration: <int>` (lines 66-70). -/
def handle_spike_duration (st : ParseState) (line : String) : ParseState :=
  { st with pattern_config :=
      { st.pattern_config with
        spike_duration := some ((pyInt? (colonField1 line)).getD 30) } }

/-- Handler for `spike_intensity: <float>` (lines 71-75). -/
def handle_spike_intensity (st : ParseState) (line : String) : ParseState :=
  { st with pattern_config :=
      { st.pattern_config with
        spike_intensity := some ((pyFloat? (colonField1 line)).getD 5) } }

/-- Handler for `start_delay: <float>` (lines 76-80). -/
def handle_start_delay (st : ParseState) (line : String) : ParseState :=
  { st with pattern_config :=
      { st.pattern_config with
        start_delay := some ((pyFloat? (colonField1 line)).getD 3) } }

/-- Handler for `end_delay: <float>` (lines 81-85). -/
def handle_end_delay (st : ParseState) (line : String) : ParseState :=
  { st with pattern_config :=
      { st.pattern_config with
        end_delay := some ((pyFloat? (colonField1 line)).getD (1/2)) } }

/-- Handler for `ramp_steps: <int>` (lines 86-90). -/
def handle_ramp_steps (st : ParseState) (line : String) : ParseState :=
  { st with pattern_config :=
      { st.pattern_config with
        ramp_steps := some ((pyInt? (colonField1 line)).getD 10) } }

/-- Handler for `journey: <name>` (lines 91-99): opens a new current journey,
    appended to the journey list (the previously open one, if any, can no
    longer be mutated and moves to `finished`). -/
def handle_journey (st : ParseState) (line : String) : ParseState :=
  { st with
    finished := st.finished ++ st.current.toList
    current := some
      { name := pyStrip (pySplitOnce line), steps := [], repeatCount := 1,
        condition := none } }

/-- Handler for `repeat: <int>` (lines 100-106): ignored without a current
    journey; the `except` branch assigns the default 1. -/
def handle_repeat (st : ParseState) (line : String) : ParseState :=
  match st.current with
  | none => st
  | some j =>
    { st with current := some { j with repeatCount := (pyInt? (colonField1 line)).getD 1 } }

/-- Handler for `if: <condition>` (lines 107-110): stores the raw condition
    string on the current journey; ignored without one. -/
def handle_if (st : ParseState) (line : String) : ParseState :=
  match st.current with
  | none => st
  | some j =>
    { st with current := some { j with condition := some (pyStrip (pySplitOnce line)) } }

/-- Handler for `end` (lines 111-112): closes the current journey. -/
def handle_end (st : ParseState) : ParseState :=
  { st with finished := st.finished ++ st.current.toList, current := none }

/-- Handler for a step line `- METHOD path [payload]` (lines 113-138): a
    regex failure only warns; a recognized step is appended to the flat step
    list and, when a journey is open, to that journey as well. -/
def handle_step (st : ParseState) (line : String) : ParseState :=
  match parseStepLine line with
  | none => st
  | some (meth, path, payload) =>
    let step : Step :=
      { method := pyToUpper meth, path := path, payload := payload,
        fallback_endpoint := none }
    { st with
      steps := st.steps ++ [step]
      current := st.current.map (fun j => { j with steps := j.steps ++ [step] }) }

/-- The directive a (stripped) line matches, with the source's `elif` order
    as first-match-wins (so `end_delay:` is tested before `end`, and any
    other line beginning with `end` closes the current journey; `blank`
    covers empty lines and `#` comments; `unknown` lines have no effect). -/
inductive Directive where
  | blank
  | users
  | duration
  | pattern
  | peak_hours
  | off_peak_multiplier
  | base_delay
  | spike_interval
  | spike_duration
  | spike_intensity
  | start_delay
  | end_delay
  | ramp_steps
  | journey
  | repeatD
  | ifD
  | endD
  | stepD
  | unknown
deriving DecidableEq, Repr

/-- The prefix-dispatch table of `parse_dsl`'s line loop (`main.py` lines
    31-113), one entry per `elif line.startswith(...)` test, in source
    order: the first matching prefix wins. -/
def directiveTable : List (String × Directive) :=
  [("users:", .users), ("duration:", .duration), ("pattern:", .pattern),
   ("peak_hours:", .peak_hours), ("off_peak_multiplier:", .off_peak_multiplier),
   ("base_delay:", .base_delay), ("spike_interval:", .spike_interval),
   ("spike_duration:", .spike_duration), ("spike_intensity:", .spike_intensity),
   ("start_delay:", .start_delay), ("end_delay:", .end_delay),
   ("ramp_steps:", .ramp_steps), ("journey:", .journey), ("repeat:", .repeatD),
   ("if:", .ifD), ("end", .endD), ("-", .stepD)]

/-- First-match-wins lookup over a prefix-dispatch table; no match means the
    line is silently ignored (`unknown`). -/
def lookupDirective : List (String × Directive) → String → Directive
  | [], _ => .unknown
  | (p, d) :: rest, line =>
    if pyStartsWith line p then d else lookupDirective rest line

/-- Prefix dispatch of `parse_dsl`'s line loop: blank lines and `#` comments
    are skipped (`main.py` lines 28-29), everything else goes through the
    `elif` chain in source order. -/
def directiveOf (line : String) : Directive :=
  if line = "" ∨ pyStartsWith line "#" then .blank
  else lookupDirective directiveTable line

/-- One iteration of the line loop on an already-stripped line: dispatch to
    the matching directive's handler (`main.py` lines 26-138). -/
def parseLineStripped (st : ParseState) (line : String) : ParseState :=
  match directiveOf line with
  | .blank => st
  | .users => handle_users st line
  | .duration => handle_duration st line
  | .pattern => handle_pattern st line
  | .peak_hours => handle_peak_hours st line
  | .off_peak_multiplier => handle_off_peak_multiplier st line
  | .base_delay => handle_base_delay st line
  | .spike_interval => handle_spike_interval st line
  | .spike_duration => handle_spike_duration st line
  | .spike_intensity => handle_spike_intensity st line
  | .start_delay => handle_start_delay st line
  | .end_delay => handle_end_delay st line
  | .ramp_steps => handle_ramp_steps st line
  | .journey => handle_journey st line
  | .repeatD => handle_repeat st line
  | .ifD => handle_if st line
  | .endD => handle_end st
  | .stepD => handle_step st line
  | .unknown => st

/-- One iteration of the line loop: Python first rebinds `line = line.strip()`
    and then dispatches on the stripped line. -/
def parseLine (st : ParseState) (raw : String) : ParseState :=
  parseLineStripped st (pyStrip raw)

/-- Embedding of `parse_dsl(dsl_script)` (`main.py` lines 5-147). An empty or
    all-whitespace script takes the early return (whose dict carries no
    `pattern_config` key: `none` here); otherwise the line loop runs and the
    final dict is assembled. -/
def parse_dsl (dsl_script : String) : DslPlan :=
  if pyStrip dsl_script = "" then
    { num_users := 1, test_duration := 60, workload_pattern := "steady",
      pattern_config := none, steps := [], user_journey := [] }
  else
    let st := (pySplitlines dsl_script).foldl parseLine {}
    { num_users := st.num_users
      test_duration := st.test_duration
      workload_pattern := st.workload_pattern
      pattern_config := some st.pattern_config
      steps := st.steps
      user_journey := st.finished ++ st.current.toList }

/-! ## Worker-side reads of the parse result (`services/test-worker/main.py`) -/

/-- Values a `parse_dsl` result dict can hold, for modelling Python's
    `dict.get`. -/
inductive DslVal where
  | int (n : Int)
  | rat (q : ℚ)
  | str (s : String)
  | config (c : PatternConfig)
  | stepList (l : List Step)
  | journeyList (l : List Journey)
deriving DecidableEq, Repr

/-- Key lookup on the dict returned by `parse_dsl`. The normal return
    (`main.py` lines 140-147) carries exactly the keys `num_users`,
    `test_duration`, `workload_pattern`, `pattern_config`, `steps`,
    `user_journey`; the empty-script early return (lines 7-13) carries the
    same keys minus `pattern_config`. Every other key — in particular
    `user_model`, `arrival_rate`, `session_duration`, `timeout`,
    `retry_attempts`, `auth_type` — is absent from both. -/
def dslGet (d : DslPlan) (key : String) : Option DslVal :=
  if key = "num_users" then some (.int d.num_users)
  else if key = "test_duration" then some (.int d.test_duration)
  else if key = "workload_pattern" then some (.str d.workload_pattern)
  else if key = "pattern_config" then d.pattern_config.map .config
  else if key = "steps" then some (.stepList d.steps)
  else if key = "user_journey" then some (.journeyList d.user_journey)
  else none

/-- The worker's read `dsl_data.get("user_model", "closed")`
    (`test-worker/main.py` line 82). -/
def worker_user_model (d : DslPlan) : String :=
  match dslGet d "user_model" with
  | some (.str s) => s
  | _ => "closed"

/-- The worker's read `dsl_data.get("arrival_rate")` (line 83); `none` models
    Python `None`. -/
def worker_arrival_rate (d : DslPlan) : Option ℚ :=
  match dslGet d "arrival_rate" with
  | some (.rat q) => some q
  | _ => none

/-- The worker's read `dsl_data.get("session_duration")` (line 84). -/
def worker_session_duration (d : DslPlan) : Option ℚ :=
  match dslGet d "session_duration" with
  | some (.rat q) => some q
  | _ => none

/-- The worker's read `dsl_data.get("timeout", 30)` (line 90). -/
def worker_timeout (d : DslPlan) : Int :=
  match dslGet d "timeout" with
  | some (.int n) => n
  | _ => 30

/-- The worker's read `dsl_data.get("retry_attempts", 3)` (line 91). -/
def worker_retry_attempts (d : DslPlan) : Int :=
  match dslGet d "retry_attempts" with
  | some (.int n) => n
  | _ => 3

/-! ## Workload generator (`modules/workload_generator.py`) -/

/-- Python `int()` applied to a float: truncation toward zero. For `q : ℚ`,
    `q.num / q.den` with `Int` division (which rounds toward zero) is exactly
    that. -/
def pyTrunc (q : ℚ) : Int := q.num / (q.den : Int)

/-- Python float `%`: result has the sign of the divisor
    (`a - n * floor (a / n)`). Callers guard against a zero divisor. -/
def pyMod (a n : ℚ) : ℚ := a - n * ⌊a / n⌋

/-- State of `class WorkloadGenerator` (`workload_generator.py` lines 5-19),
    as set up by `__init__`. `spike_start_time` and `spike_active` are
    initialized but never read by any method. -/
structure WorkloadGenerator where
  pattern : String
  num_users : Int
  duration : Int
  current_time : ℚ := 0
  pattern_config : PatternConfig := {}
  user_model : String := "closed"
  arrival_rate : Option ℚ := none
  session_duration : Option ℚ := none
  spike_start_time : ℚ := 0
  spike_active : Bool := false
deriving DecidableEq, Repr

/-- Embedding of `WorkloadGenerator.get_next_delay` (`workload_generator.py`
    lines 21-89). Randomness is passed in explicitly: `unif a b` is the value
    drawn by `random.uniform(a, b)` and `rnd` the value drawn by
    `random.random()` (the `burst` branch's single such draw). A `none`
    result models the `ZeroDivisionError` Python raises when `duration` is
    zero (`ramp_up`, `daily_cycle`, `gradual_ramp` divide by it), when
    `spike_interval` is zero (`%`), when `spike_intensity` is zero, or when
    `ramp_steps` is zero. -/
def get_next_delay (g : WorkloadGenerator) (unif : ℚ → ℚ → ℚ) (rnd : ℚ) :
    Option ℚ :=
  if g.pattern = "burst" then
    if rnd < 7/10 then some (unif (1/10) (1/2)) else some (unif 1 3)
  else if g.pattern = "steady" then
    some (unif (1/2) (3/2))
  else if g.pattern = "ramp_up" then
    if g.duration = 0 then none
    else
      let progress := g.current_time / (g.duration : ℚ)
      let base_delay := 2 - progress * (3/2)
      some (unif (base_delay * (4/5)) (base_delay * (6/5)))
  else if g.pattern = "daily_cycle" then
    let peak_hours := g.pattern_config.peak_hours.getD [9, 10, 11, 14, 15, 16]
    let off_peak_multiplier := g.pattern_config.off_peak_multiplier.getD (3/10)
    let base_delay := g.pattern_config.base_delay.getD 1
    if g.duration = 0 then none
    else
      let hour_in_day := g.current_time / (g.duration : ℚ) * 24
      let is_peak_hour := peak_hours.any (fun p => |hour_in_day - (p : ℚ)| < 1/2)
      if is_peak_hour then some (base_delay * unif (1/2) 1)
      else some (base_delay * off_peak_multiplier * unif 1 2)
  else if g.pattern = "spike" then
    let spike_interval := g.pattern_config.spike_interval.getD 120
    let spike_duration := g.pattern_config.spike_duration.getD 30
    let spike_intensity := g.pattern_config.spike_intensity.getD 5
    let base_delay := g.pattern_config.base_delay.getD 2
    if spike_interval = 0 then none
    else
      let time_in_cycle := pyMod g.current_time (spike_interval : ℚ)
      if time_in_cycle < (spike_duration : ℚ) then
        if spike_intensity = 0 then none
        else some (base_delay / spike_intensity * unif (1/10) (3/10))
      else some (base_delay * unif (4/5) (3/2))
  else if g.pattern = "gradual_ramp" then
    let start_delay := g.pattern_config.start_delay.getD 3
    let end_delay := g.pattern_config.end_delay.getD (1/2)
    let ramp_steps := g.pattern_config.ramp_steps.getD 10
    if g.duration = 0 then none
    else
      let progress := g.current_time / (g.duration : ℚ)
      let step := pyTrunc (progress * (ramp_steps : ℚ))
      let step := min step (ramp_steps - 1)
      if ramp_steps = 0 then none
      else
        let step_progress := ((step : ℚ) + 1) / (ramp_steps : ℚ)
        let current_delay := start_delay - (start_delay - end_delay) * step_progress
        some (current_delay * unif (7/10) (13/10))
  else
    some (unif (1/2) 2)

/-- Embedding of `WorkloadGenerator.update_time` (lines 92-93). -/
def update_time (g : WorkloadGenerator) (elapsed_time : ℚ) : WorkloadGenerator :=
  { g with current_time := elapsed_time }

/-- Embedding of `WorkloadGenerator.get_session_duration` (lines 95-100):
    for the open model with a truthy configured `session_duration`, an
    exponential draw (supplied as the oracle `expDraw`, the value of
    `random.expovariate(1/session_duration)`) capped at three times the mean;
    otherwise the full test duration. `session_duration = 0` is falsy in
    Python, hence the extra `≠ 0` test. -/
def get_session_duration (g : WorkloadGenerator) (expDraw : ℚ) : ℚ :=
  match g.session_duration with
  | some sd =>
    if g.user_model = "open" ∧ sd ≠ 0 then
      min expDraw (sd * 3)
    else (g.duration : ℚ)
  | none => (g.duration : ℚ)

/-! ## Step executor (`modules/journey_executor.py` lines 78-193) -/

/-- Per-session mutable cells passed into the executors: the single-element
    lists `requests`, `successful`, `failed` and the lists `latencies`,
    `errors` of `simulate_user_journey` / `simulate_user_session`. -/
structure SessState where
  requests : Nat
  successful : Nat
  failed : Nat
  latencies : List ℚ
  errors : List ErrorRecord
deriving DecidableEq, Repr

/-- The all-zero initial per-session state. -/
def SessState.empty : SessState := ⟨0, 0, 0, [], []⟩

/-- Outcome of one HTTP attempt against the target: either a response with a
    status and an observed latency, or a raised exception of the given kind
    (with its message). `asyncio.TimeoutError` is `excRaised .timeoutError`,
    handled by the executor's first `except` clause. -/
inductive AttemptResult where
  | response (status : Int) (latency : ℚ)
  | excRaised (kind : PyExc) (msg : String)
deriving DecidableEq, Repr

/-- Oracle describing the target's behavior: the outcome of the primary
    request on each attempt index, and the status of the fallback `GET`
    issued after a failed attempt (`none` models an exception from the
    fallback call, which the executor catches and ignores). -/
structure HttpOracle where
  attempt : Nat → AttemptResult
  fallback : Nat → Option Int

/-- The uncaught Python exceptions the executor model can surface:
    unpacking `None` from `categorize_error` raises a `TypeError`. -/
inductive PyError where
  | typeError
deriving DecidableEq, Repr

/-- Python truthiness of the optional `fallback_endpoint` string
    (`if strategy == ... and fallback_endpoint:`): present and nonempty. -/
def truthyStr (o : Option String) : Bool :=
  match o with
  | some s => s ≠ ""
  | none => false

/-- One run of the `for attempt in range(retry_attempts + 1)` loop of
    `execute_with_graceful_degradation` (`journey_executor.py` lines 86-193),
    starting at index `attempt` with `fuel` iterations still available
    (top-level call: `fuel = retry_attempts + 1`, `attempt = 0`, so `fuel`
    counts exactly the remaining loop iterations). `fuel = 0` is the loop
    running out, i.e. the `return DegradationStrategy.SKIP_STEP` at line 193.
    Each iteration mirrors the source:

    * a response with status in `[200, 300)` increments `requests` and
      `successful`, records the latency and returns `continue_journey`;
    * any other status increments `requests` and `failed`, classifies by
      status (a `none` classification makes the tuple unpacking at line 140
      raise: `Except.error .typeError`), appends an `ErrorRecord` carrying
      `attempt + 1`, computes the strategy, and — only when the strategy is
      `fallback_endpoint` and a fallback path is truthy — issues one fallback
      `GET`, counting a 2xx fallback as a success (note this second increment
      of `requests`); otherwise returns the strategy without retrying;
    * a timeout exception retries (after a backoff sleep, not modelled) while
      `attempt < retry_attempts`, else counts a failure, records and returns;
    * any other exception retries (1 s sleep, not modelled) while
      `attempt < retry_attempts` and the record is `retry_eligible`, else
      counts a failure, records and returns.

    The per-request timeout and auth injection only shape the HTTP call
    itself, which the oracle abstracts, so they are not parameters here. -/
def execDegLoop (o : HttpOracle) (url : String) (fb : Option String)
    (retry_attempts : Nat) (user_id : Nat) :
    Nat → Nat → SessState → Except PyError (SessState × DegradationStrategy)
  | 0, _, st => .ok (st, .skip_step)
  | fuel + 1, attempt, st =>
    match o.attempt attempt with
    | .response status latency =>
      if 200 ≤ status ∧ status < 300 then
        .ok ({ st with
                requests := st.requests + 1
                successful := st.successful + 1
                latencies := st.latencies ++ [latency] }, .continue_journey)
      else
        let st1 := { st with requests := st.requests + 1, failed := st.failed + 1 }
        match categorize_error none (some status) with
        | none => .error .typeError
        | some (category, severity) =>
          let rcd := create_error_record category severity url user_id (attempt + 1)
            ("HTTP " ++ toString status ++ ": " ++ url)
          let st2 := { st1 with errors := st1.errors ++ [rcd] }
          let strategy := determine_degradation_strategy category severity attempt
            retry_attempts
          if strategy = .fallback_endpoint ∧ truthyStr fb then
            match o.fallback attempt with
            | some fstatus =>
              if 200 ≤ fstatus ∧ fstatus < 300 then
                .ok ({ st2 with
                        requests := st2.requests + 1
                        successful := st2.successful + 1
                        latencies := st2.latencies ++ [latency] }, .continue_journey)
              else .ok (st2, strategy)
            | none => .ok (st2, strategy)
          else .ok (st2, strategy)
    | .excRaised .timeoutError _ =>
      match categorize_error (some .timeoutError) none with
      | none => .error .typeError
      | some (category, severity) =>
        let rcd := create_error_record category severity url user_id (attempt + 1)
          "Timeout"
        if attempt < retry_attempts then
          execDegLoop o url fb retry_attempts user_id fuel (attempt + 1) st
        else
          .ok ({ st with
                  requests := st.requests + 1
                  failed := st.failed + 1
                  errors := st.errors ++ [rcd] },
            determine_degradation_strategy category severity attempt retry_attempts)
    | .excRaised kind msg =>
      match categorize_error (some kind) none with
      | none => .error .typeError
      | some (category, severity) =>
        let rcd := create_error_record category severity url user_id (attempt + 1) msg
        if attempt < retry_attempts ∧ rcd.retry_eligible then
          execDegLoop o url fb retry_attempts user_id fuel (attempt + 1) st
        else
          .ok ({ st with
                  requests := st.requests + 1
                  failed := st.failed + 1
                  errors := st.errors ++ [rcd] },
            determine_degradation_strategy category severity attempt retry_attempts)

/-- Embedding of `execute_with_graceful_degradation(session, target_url,
    endpoint, ...)` (`journey_executor.py` lines 78-193). The method dispatch
    happens inside the first loop iteration in the source; an unsupported
    method returns `skip_step` there with no counter changes, which is
    observationally the same as checking it up front (the loop body always
    runs at least once since `range(retry_attempts + 1)` is nonempty).
    `fallback_endpoint` is read from the endpoint dict via `.get`. -/
def execute_with_graceful_degradation (o : HttpOracle) (target_url : String)
    (endpoint : Step) (retry_attempts : Nat) (user_id : Nat) (st : SessState) :
    Except PyError (SessState × DegradationStrategy) :=
  let url := target_url ++ endpoint.path
  if endpoint.method = "GET" ∨ endpoint.method = "POST" ∨ endpoint.method = "PUT" ∨
      endpoint.method = "PATCH" ∨ endpoint.method = "DELETE" then
    execDegLoop o url endpoint.fallback_endpoint retry_attempts user_id
      (retry_attempts + 1) 0 st
  else
    .ok (st, .skip_step)

/-- Strategy component of an executor result, when it returned normally. -/
def strategyOf (r : Except PyError (SessState × DegradationStrategy)) :
    Option DegradationStrategy :=
  match r with
  | .ok (_, s) => some s
  | .error _ => none

/-- Error list of an executor result, when it returned normally. -/
def errorsOf (r : Except PyError (SessState × DegradationStrategy)) :
    List ErrorRecord :=
  match r with
  | .ok (st, _) => st.errors
  | .error _ => []

/-! ## Journey runner (`modules/journey_executor.py` lines 195-216) -/

/-- A step-execution function, abstracting one call to
    `execute_with_graceful_degradation` from the journey runner (the runner
    passes the resolved auth, timeout and retry budget through unchanged, so
    only the step and the session state vary between calls). -/
def StepExec : Type :=
  Step → SessState → Except PyError (SessState × DegradationStrategy)

/-- Inner `for step in journey_step["steps"]` loop of `execute_user_journey`
    (lines 205-216). Besides the final state it returns whether a
    `terminate_journey` strategy stopped the run, and (as a ghost trace) the
    list of steps actually executed. `skip_step` is a `continue`, which
    proceeds to the next step exactly like the remaining strategies. -/
def runSteps (f : StepExec) : List Step → SessState →
    Except PyError (SessState × Bool × List Step)
  | [], st => .ok (st, false, [])
  | s :: rest, st =>
    match f s st with
    | .error e => .error e
    | .ok (st1, strategy) =>
      if strategy = .terminate_journey then .ok (st1, true, [s])
      else
        match runSteps f rest st1 with
        | .error e => .error e
        | .ok (st2, term, trace) => .ok (st2, term, s :: trace)

/-- Middle `for _ in range(repeat_count)` loop of `execute_user_journey`
    (line 204): `n` is the number of remaining repetitions (`range` of a
    non-positive `repeat` is empty, hence the `Int.toNat` at the call site). -/
def runRepeat (f : StepExec) (steps : List Step) :
    Nat → SessState → Except PyError (SessState × Bool × List Step)
  | 0, st => .ok (st, false, [])
  | n + 1, st =>
    match runSteps f steps st with
    | .error e => .error e
    | .ok (st1, true, trace) => .ok (st1, true, trace)
    | .ok (st1, false, trace) =>
      match runRepeat f steps n st1 with
      | .error e => .error e
      | .ok (st2, term, trace2) => .ok (st2, term, trace ++ trace2)

/-- Embedding of `execute_user_journey` (lines 195-216): iterate the journeys
    in order, repeating each journey's step list `repeat` times, stopping
    everything on the first `terminate_journey`. The `setup_auth` call at
    line 200 only produces the auth value threaded into each step execution,
    which `f` closes over, so it is not modelled separately. The ghost trace
    lists every step execution performed, in order. -/
def execute_user_journey (f : StepExec) :
    List Journey → SessState → Except PyError (SessState × List Step)
  | [], st => .ok (st, [])
  | j :: rest, st =>
    match runRepeat f j.steps j.repeatCount.toNat st with
    | .error e => .error e
    | .ok (st1, true, trace) => .ok (st1, trace)
    | .ok (st1, false, trace) =>
      match execute_user_journey f rest st1 with
      | .error e => .error e
      | .ok (st2, trace2) => .ok (st2, trace ++ trace2)

/-- The full sequence of step executions `execute_user_journey` would perform
    if nothing terminated early: each journey's step list repeated
    `repeat` times, journeys in order. -/
def flatJourneySteps (journeys : List Journey) : List Step :=
  journeys.flatMap (fun j => (List.replicate j.repeatCount.toNat j.steps).flatten)

/-! ## Open-model arrival loop and aggregation (`services/test-worker/main.py`) -/

/-- Embedding of the arrival loop of `run_open_model_test` (`main.py` lines
    187-205) at the granularity of its 0.1 s ticks. At each tick `t` (while
    the elapsed duration is not reached, `fuel` ticks remaining): the
    Bernoulli arrival trial (`random.random() < min(arrival_rate*0.1, 1)`)
    is given by the oracle `arrive t`; on success a session task is appended
    to the active list (represented by its spawn tick); then completed tasks
    are pruned (`active_users = [task for task in active_users if not
    task.done()]`). A task spawned at tick `s` with lifetime `life s` ticks
    is done at every tick `t` with `s + life s < t` (a freshly created task
    has not run yet, so it is never done at its own spawn tick). The final
    list is the active list when the duration elapses. -/
def openTicks (arrive : Nat → Bool) (life : Nat → Nat) :
    Nat → Nat → List Nat → List Nat
  | 0, _, active => active
  | fuel + 1, t, active =>
    let active1 := if arrive t then active ++ [t] else active
    let active2 := active1.filter (fun s => !decide (s + life s < t))
    openTicks arrive life fuel (t + 1) active2

/-- Result collection of `run_open_model_test` (lines 207-226): after the
    loop, the still-active tasks are awaited (`asyncio.gather`), then
    `results` is built from the tasks in `active_users` only — the sessions
    pruned during the loop are gone. `out s` is the result dict of the
    session spawned at tick `s` (every session task completes normally after
    the gather, and none is cancelled). `durTicks` is the test duration in
    0.1 s ticks. -/
def run_open_model_results (arrive : Nat → Bool) (life : Nat → Nat)
    (out : Nat → SessState) (durTicks : Nat) : List SessState :=
  (openTicks arrive life durTicks 0 []).map out

/-- Every session spawned during the test, by spawn tick, in order — each of
    them completes (at latest when awaited after the loop), so this is the
    set of session tasks "that completed during the test". -/
def openSpawnedSessions (arrive : Nat → Bool) (durTicks : Nat) : List Nat :=
  (List.range durTicks).filter arrive

/-- The aggregation loop of `run_performance_test` (`main.py` lines 131-137):
    sum the request/success/failure counts and concatenate the latency and
    error lists over the collected per-session result dicts. -/
def aggregate_results (rs : List SessState) : SessState :=
  rs.foldl
    (fun acc r =>
      { requests := acc.requests + r.requests
        successful := acc.successful + r.successful
        failed := acc.failed + r.failed
        latencies := acc.latencies ++ r.latencies
        errors := acc.errors ++ r.errors })
    SessState.empty

/-! ## Specification-side definitions and concrete instances used by the
    theorems below -/

/-- The degradation table exactly as the specification words it (for the
    retries-exhausted case): auth_error → terminate_journey; http_error with
    severity high → skip_step; timeout or network → fallback_endpoint;
    everything else → continue_journey. Stated separately from
    `determine_degradation_strategy` so the code can be proved to refine the
    spec's table. -/
def decide_strategy_spec (category : ErrorCategory) (severity : ErrorSeverity) :
    DegradationStrategy :=
  match category, severity with
  | .auth_error, _ => .terminate_journey
  | .http_error, .high => .skip_step
  | .timeout, _ => .fallback_endpoint
  | .network, _ => .fallback_endpoint
  | _, _ => .continue_journey

/-- A target that always answers HTTP 500 (latency 0.1 s); no fallback ever
    succeeds. -/
def oAlways500 : HttpOracle := ⟨fun _ => .response 500 (1/10), fun _ => none⟩

/-- A target that always answers HTTP 401. -/
def oAlways401 : HttpOracle := ⟨fun _ => .response 401 1, fun _ => none⟩

/-- A target that always answers HTTP 302 (a redirect, outside the executor's
    success range `[200, 300)`). -/
def oAlways302 : HttpOracle := ⟨fun _ => .response 302 1, fun _ => none⟩

/-- A target that always answers HTTP 200 with latency 1 s. -/
def oAlways200 : HttpOracle := ⟨fun _ => .response 200 1, fun _ => none⟩

/-- A plain `GET /x` step as `parse_dsl` would produce it (no payload, no
    fallback key). -/
def stepGET : Step := { method := "GET", path := "/x", payload := none }

/-- The step executor as the journey runner invokes it against the always-401
    target with `retry_attempts = 0` (so the first attempt is already the
    last: `attempt ≥ max_attempts` at the degradation decision). -/
def exec401 : StepExec :=
  fun stp st => execute_with_graceful_degradation oAlways401 "http://t" stp 0 0 st

/-- A DSL script exercising the five scalar directives of claim C1. -/
def c1Script : String :=
  "user_model: open\narrival_rate: 2.5\nsession_duration: 12\ntimeout: 99\nretry_attempts: 7"

/-- A script with a malformed user count, an empty duration value, two
    malformed step lines, an unknown pattern, a stray `repeat:`/`end` and a
    comment — every line either unrecognized or taking an `except` default. -/
def c6Junk : String :=
  "garbage\nusers: abc\nduration:\n- \n- GET\npattern: zzz\nrepeat: 5\nend\n###"

/-- Workload generator for the `gradual_ramp` pattern with an empty
    `pattern_config` (all defaults) at the start of a 60 s test. -/
def gRamp0 : WorkloadGenerator :=
  { pattern := "gradual_ramp", num_users := 1, duration := 60 }

/-- Open-model arrival oracle for the C4 scenario: sessions arrive at ticks 0
    and 2 of a 3-tick test. -/
def c4Arrive : Nat → Bool := fun t => t == 0 || t == 2

/-- Session lifetimes for the C4 scenario: the tick-0 session completes
    immediately (pruned at the next tick); the tick-2 session outlives the
    test. -/
def c4Life : Nat → Nat := fun t => if t = 0 then 0 else 100

/-- Session outcomes for the C4 scenario: the tick-0 session made 5
    (successful) requests, the tick-2 session 7. -/
def c4Out : Nat → SessState :=
  fun t => if t = 0 then ⟨5, 5, 0, [], []⟩ else ⟨7, 7, 0, [], []⟩

/-- Two named journeys, all steps `GET`, for the C9 witness. -/
def c9Journeys : List Journey :=
  [{ name := "a", steps := [stepGET, { stepGET with path := "/y" }],
     repeatCount := 1, condition := none },
   { name := "b", steps := [{ stepGET with path := "/z" }],
     repeatCount := 2, condition := none }]

/-! ## Claim theorems -/

/-- C7: `parse_dsl` applied to the empty (or all-whitespace) script returns,
    without raising, a plan with population 1, duration 60, pattern steady,
    an empty flat step list and an empty journey list. -/
theorem C7_empty_script_default_plan :
    parse_dsl "" =
      { num_users := 1, test_duration := 60, workload_pattern := "steady",
        pattern_config := none, steps := [], user_journey := [] } ∧
    parse_dsl "   \n\t " =
      { num_users := 1, test_duration := 60, workload_pattern := "steady",
        pattern_config := none, steps := [], user_journey := [] } :=
  ⟨by decide, by decide⟩

/-- C5: `determine_degradation_strategy` is a total deterministic function of
    `(category, severity, attempt, max_attempts)`: it returns
    `continue_journey` whenever `attempt < max_attempts`, and otherwise it
    computes exactly the specification's table `decide_strategy_spec`
    (terminate_journey for auth_error, skip_step for http_error with severity
    high, fallback_endpoint for timeout or network, continue_journey for
    every other defined category). -/
theorem C5_decide_strategy_total (category : ErrorCategory)
    (severity : ErrorSeverity) (attempt max_attempts : Nat) :
    (attempt < max_attempts →
      determine_degradation_strategy category severity attempt max_attempts =
        .continue_journey) ∧
    (max_attempts ≤ attempt →
      determine_degradation_strategy category severity attempt max_attempts =
        decide_strategy_spec category severity) := by
  constructor
  · intro h
    simp [determine_degradation_strategy, h]
  · intro h
    have h2 : ¬ attempt < max_attempts := not_lt.mpr h
    cases category <;> cases severity <;>
      simp [determine_degradation_strategy, decide_strategy_spec, h2]

/-- Witness for C5 at `(auth_error, high, attempt = 3, max_attempts = 3)`. -/
theorem C5_witness :
    (3 : Nat) ≤ 3 ∧
    determine_degradation_strategy .auth_error .high 3 3 =
      decide_strategy_spec .auth_error .high :=
  ⟨by decide, (C5_decide_strategy_total .auth_error .high 3 3).2 (by decide)⟩

/-- C10: `categorize_error` called with no exception and an HTTP status
    outside both the 400-499 and 500-599 ranges (any 3xx status, which the
    step executor treats as a failure since success is status in [200,300))
    returns `none` instead of a pair, so the tuple unpacking of its result in
    `execute_with_graceful_degradation` raises for such a response: against a
    target that always answers 302, the executor raises a `TypeError`. -/
theorem C10_categorize_not_total :
    (∀ s : Int, 300 ≤ s → s < 400 → categorize_error none (some s) = none) ∧
    execute_with_graceful_degradation oAlways302 "http://t" stepGET 3 0
      SessState.empty = .error .typeError := by
  constructor
  · intro s h1 h2
    have hs0 : ¬ s = 0 := by omega
    have h401 : ¬ s = 401 := by omega
    have h403 : ¬ s = 403 := by omega
    have h4xx : ¬ (400 ≤ s ∧ s < 500) := by omega
    have h5xx : ¬ (500 ≤ s ∧ s < 600) := by omega
    simp [categorize_error, hs0, h401, h403, h4xx, h5xx]
  · rfl

/-- Witness for C10 at status 302. -/
theorem C10_witness :
    ((300 : Int) ≤ 302 ∧ (302 : Int) < 400) ∧
    categorize_error none (some 302) = none :=
  ⟨by decide, C10_categorize_not_total.1 302 (by decide) (by decide)⟩

/-- C2 counterexample: against the always-500 target with `retry_attempts = 2`
    and no fallback, the executor records its single `ErrorRecord` with
    `attempt = 1` (not 3) and returns `continue_journey` (not
    `fallback_endpoint`): an HTTP status failure returns immediately from
    attempt 0, and `determine_degradation_strategy` never maps
    `server_error` to `fallback_endpoint` anyway. -/
theorem C2_counterexample :
    strategyOf (execute_with_graceful_degradation oAlways500 "http://t" stepGET
      2 0 SessState.empty) = some .continue_journey ∧
    some DegradationStrategy.continue_journey ≠
      some DegradationStrategy.fallback_endpoint ∧
    (errorsOf (execute_with_graceful_degradation oAlways500 "http://t" stepGET
      2 0 SessState.empty)).map (fun r => r.attempt) = [1] ∧
    (1 : Nat) ≠ 3 :=
  ⟨rfl, by decide, rfl, by decide⟩

/-- C2 as amended: against a target that always answers HTTP 500, with
    `retry_attempts = 2` and no fallback path configured, exactly one
    `ErrorRecord` is appended, with `category = server_error`,
    `severity = high` and `attempt = 1` (only attempt 0 is made), and the
    returned strategy is `continue_journey`. -/
theorem C2_amended_thm :
    execute_with_graceful_degradation oAlways500 "http://t" stepGET 2 0
      SessState.empty =
      .ok ({ requests := 1, successful := 0, failed := 1, latencies := [],
             errors := [{ category := .server_error, severity := .high,
                          endpoint := "http://t/x", user_id := 0, attempt := 1,
                          error_message := "HTTP 500: http://t/x",
                          retry_eligible := true }] },
        .continue_journey) := by
  rfl

/-- C4 (code bug): in the open model, a session that completes before the
    test duration elapses is pruned from `active_users` and its outcome is
    dropped from the final aggregation. With arrivals at ticks 0 and 2 of a
    3-tick test, where the tick-0 session (5 requests) completes right away
    and the tick-2 session (7 requests) outlives the loop, the code
    aggregates 7 total requests, while aggregating every session that
    completed during the test would give 12. -/
theorem C4_pruned_sessions_dropped :
    openTicks c4Arrive c4Life 3 0 [] = [2] ∧
    openSpawnedSessions c4Arrive 3 = [0, 2] ∧
    (aggregate_results (run_open_model_results c4Arrive c4Life c4Out 3)).requests = 7 ∧
    (aggregate_results ((openSpawnedSessions c4Arrive 3).map c4Out)).requests = 12 ∧
    (7 : Nat) ≠ 12 :=
  ⟨rfl, rfl, rfl, rfl, by decide⟩

/-- C8 counterexample: for `gradual_ramp` with default configuration at
    `current_time = 0`, the jitter draw 0.7 (within the uniform(0.7, 1.3)
    range) yields delay `2.75 × 0.7 = 1.925`, below the claimed lower bound
    `0.7 × start_delay = 2.1`: the interpolation uses
    `(step + 1) / ramp_steps`, so the first bucket's base delay is already
    `start_delay - (start_delay - end_delay)/ramp_steps = 2.75`, not 3. -/
theorem C8_counterexample :
    get_next_delay gRamp0 (fun _ _ => 7/10) 0 = some (77/40) ∧
    ((7 : ℚ)/10 ≤ 7/10 ∧ (7 : ℚ)/10 ≤ 13/10) ∧
    ¬ ((7/10 : ℚ) * 3 ≤ 77/40) := by
  refine ⟨?_, by norm_num, by norm_num⟩
  simp [get_next_delay, gRamp0, pyTrunc]
  norm_num

/-- C8 as amended: for `gradual_ramp` with default configuration over any
    positive test duration and any jitter draw `u ∈ [0.7, 1.3]`, the delay at
    `current_time = 0` lies in `[0.7 × 2.75, 1.3 × 2.75] = [1.925, 3.575]`
    (jitter bounds of the first-bucket interpolated delay, one bucket below
    `start_delay`), and the delay at `current_time = duration` lies in
    `[0.7 × 0.5, 1.3 × 0.5] = [0.35, 0.65]` (jitter bounds of `end_delay`,
    as claimed). -/
theorem C8_amended_thm (d : Int) (hd : 0 < d) (u v : ℚ)
    (hu : 7/10 ≤ u ∧ u ≤ 13/10) (hv : 7/10 ≤ v ∧ v ≤ 13/10) :
    ∃ x y,
      get_next_delay
        { pattern := "gradual_ramp", num_users := 1, duration := d,
          current_time := 0 } (fun _ _ => u) 0 = some x ∧
      get_next_delay
        { pattern := "gradual_ramp", num_users := 1, duration := d,
          current_time := (d : ℚ) } (fun _ _ => v) 0 = some y ∧
      77/40 ≤ x ∧ x ≤ 143/40 ∧ 7/20 ≤ y ∧ y ≤ 13/20 := by
  have hd0 : d ≠ 0 := by omega
  have hdq : ((d : ℚ)) ≠ 0 := Int.cast_ne_zero.mpr hd0
  refine ⟨(11/4) * u, (1/2) * v, ?_, ?_,
    by linarith [hu.1], by linarith [hu.2], by linarith [hv.1], by linarith [hv.2]⟩
  · simp [get_next_delay, hd0, pyTrunc]
    left
    norm_num
  · simp [get_next_delay, hd0, div_self hdq, pyTrunc]
    left
    norm_num

/-- Witness for C8 at duration 60 with both jitter draws equal to 1. -/
theorem C8_witness :
    (0 : Int) < 60 ∧ ((7 : ℚ)/10 ≤ 1 ∧ (1 : ℚ) ≤ 13/10) ∧
    ∃ x y,
      get_next_delay
        { pattern := "gradual_ramp", num_users := 1, duration := 60,
          current_time := 0 } (fun _ _ => 1) 0 = some x ∧
      get_next_delay
        { pattern := "gradual_ramp", num_users := 1, duration := 60,
          current_time := ((60 : Int) : ℚ) } (fun _ _ => 1) 0 = some y ∧
      77/40 ≤ x ∧ x ≤ 143/40 ∧ 7/20 ≤ y ∧ y ≤ 13/20 :=
  ⟨by decide, by norm_num,
    C8_amended_thm 60 (by decide) 1 1 (by norm_num) (by norm_num)⟩

/-- C1 counterexample: a script carrying all five scalar directives parses to
    a dict with no `timeout` (or other) key, so the worker's `.get` reads
    return the defaults 30 and 3 — not the 99 and 7 the script requested —
    and `user_model`/`arrival_rate`/`session_duration` likewise stay at
    `"closed"`/`None`/`None`. -/
theorem C1_counterexample :
    dslGet (parse_dsl c1Script) "timeout" = none ∧
    worker_timeout (parse_dsl c1Script) = 30 ∧ (30 : Int) ≠ 99 ∧
    worker_retry_attempts (parse_dsl c1Script) = 3 ∧ (3 : Int) ≠ 7 ∧
    worker_user_model (parse_dsl c1Script) = "closed" ∧
    worker_arrival_rate (parse_dsl c1Script) = none ∧
    worker_session_duration (parse_dsl c1Script) = none :=
  ⟨rfl, rfl, by decide, rfl, by decide, rfl, rfl, rfl⟩

/-- C1 as amended: `parse_dsl` does not recognize `user_model:`,
    `arrival_rate:`, `session_duration:`, `timeout:` or `retry_attempts:`
    lines — they are ignored like any unrecognized line and set no key of the
    returned dict — so the worker's `.get` reads of those keys always produce
    the defaults `"closed"`, `None`, `None`, 30 and 3, for every script; in
    particular a script consisting of exactly those five directives parses to
    the all-default plan. -/
theorem C1_amended_thm (s : String) :
    dslGet (parse_dsl s) "user_model" = none ∧
    dslGet (parse_dsl s) "arrival_rate" = none ∧
    dslGet (parse_dsl s) "session_duration" = none ∧
    dslGet (parse_dsl s) "timeout" = none ∧
    dslGet (parse_dsl s) "retry_attempts" = none ∧
    worker_user_model (parse_dsl s) = "closed" ∧
    worker_arrival_rate (parse_dsl s) = none ∧
    worker_session_duration (parse_dsl s) = none ∧
    worker_timeout (parse_dsl s) = 30 ∧
    worker_retry_attempts (parse_dsl s) = 3 ∧
    parse_dsl c1Script =
      { num_users := 1, test_duration := 60, workload_pattern := "steady",
        pattern_config := some {}, steps := [], user_journey := [] } :=
  ⟨rfl, rfl, rfl, rfl, rfl, rfl, rfl, rfl, rfl, rfl, by decide⟩

/-- A status-code classification never yields the timeout or network
    categories (those arise only from exceptions). -/
lemma categorize_status_cases (s : Int) (c : ErrorCategory) (v : ErrorSeverity)
    (h : categorize_error none (some s) = some (c, v)) :
    c ≠ .timeout ∧ c ≠ .network := by
  dsimp only [categorize_error] at h
  split_ifs at h <;>
    first
      | exact Option.noConfusion h
      | (simp only [Option.some.injEq, Prod.mk.injEq] at h
         rw [← h.1]
         exact ⟨by decide, by decide⟩)

/-- The degradation policy returns `fallback_endpoint` only for the timeout
    and network categories. -/
lemma determine_not_fallback (c : ErrorCategory) (v : ErrorSeverity)
    (a m : Nat) (h1 : c ≠ .timeout) (h2 : c ≠ .network) :
    determine_degradation_strategy c v a m ≠ .fallback_endpoint := by
  unfold determine_degradation_strategy
  split_ifs <;> simp_all

/-- Any normally-returning run of the executor's attempt loop increments the
    `requests` counter exactly once, over all attempts together. -/
lemma execDegLoop_requests (o : HttpOracle) (url : String) (fb : Option String)
    (ra uid : Nat) :
    ∀ fuel attempt st st' strat, attempt ≤ ra → fuel = ra + 1 - attempt →
      execDegLoop o url fb ra uid fuel attempt st = .ok (st', strat) →
      st'.requests = st.requests + 1 := by
  intro fuel
  induction fuel with
  | zero =>
    intro attempt st st' strat hle hf h
    omega
  | succ n ih =>
    intro attempt st st' strat hle hf h
    unfold execDegLoop at h
    rcases heq : o.attempt attempt with ⟨status, latency⟩ | ⟨kind, msg⟩
    · rw [heq] at h
      dsimp only at h
      split_ifs at h with hok
      · simp only [Except.ok.injEq, Prod.mk.injEq] at h
        rw [← h.1]
      · rcases hcat : categorize_error none (some status) with _ | ⟨c, v⟩ <;>
          rw [hcat] at h
        · simp at h
        · dsimp only at h
          have hnf := determine_not_fallback c v attempt ra
            (categorize_status_cases status c v hcat).1
            (categorize_status_cases status c v hcat).2
          rw [if_neg (fun hand => hnf hand.1)] at h
          simp only [Except.ok.injEq, Prod.mk.injEq] at h
          rw [← h.1]
    · rw [heq] at h
      cases kind <;>
        simp only [categorize_error, create_error_record, decide_eq_true_eq] at h <;>
        split_ifs at h <;>
          first
            | exact ih (attempt + 1) st st' strat (by omega) (by omega) h
            | (simp only [Except.ok.injEq, Prod.mk.injEq] at h
               rw [← h.1])

/-- C3: every invocation of `execute_with_graceful_degradation` on a
    supported HTTP method that reaches a terminal outcome (a normal return:
    success, fallback success, or exhausted retries) increments the shared
    total-request counter exactly once — for every target behavior, fallback
    configuration, retry budget and starting state. The path highlighted by
    the claim (primary failure, strategy `fallback_endpoint`, fallback GET
    succeeds) is unreachable: a status-classified error never yields the
    `fallback_endpoint` strategy, so its double increment never executes. -/
theorem C3_requests_incremented_once (o : HttpOracle) (target_url : String)
    (endpoint : Step) (retry_attempts user_id : Nat) (st st' : SessState)
    (strat : DegradationStrategy)
    (hm : endpoint.method = "GET" ∨ endpoint.method = "POST" ∨
      endpoint.method = "PUT" ∨ endpoint.method = "PATCH" ∨
      endpoint.method = "DELETE")
    (h : execute_with_graceful_degradation o target_url endpoint retry_attempts
      user_id st = .ok (st', strat)) :
    st'.requests = st.requests + 1 := by
  unfold execute_with_graceful_degradation at h
  rw [if_pos hm] at h
  exact execDegLoop_requests o (target_url ++ endpoint.path)
    endpoint.fallback_endpoint retry_attempts user_id (retry_attempts + 1) 0
    st st' strat (Nat.zero_le _) (by omega) h

/-- Witness for C3: a successful `GET` against the always-200 target takes
    the counter from 0 to 1. -/
theorem C3_witness :
    execute_with_graceful_degradation oAlways200 "http://t" stepGET 3 0
      SessState.empty =
      .ok ({ requests := 1, successful := 1, failed := 0, latencies := [1],
             errors := [] }, .continue_journey) ∧
    ({ requests := 1, successful := 1, failed := 0, latencies := [(1 : ℚ)],
       errors := [] } : SessState).requests = SessState.empty.requests + 1 :=
  ⟨rfl, C3_requests_incremented_once oAlways200 "http://t" stepGET 3 0
    SessState.empty _ _ (Or.inl rfl) rfl⟩

/-- Against the always-401 target with a zero retry budget, a `GET` step is
    classified `auth_error` with retries exhausted and the executor returns
    `terminate_journey`. -/
lemma exec401_terminates (stp : Step) (st : SessState)
    (h : stp.method = "GET") :
    ∃ st1, exec401 stp st = .ok (st1, .terminate_journey) := by
  unfold exec401 execute_with_graceful_degradation
  rw [if_pos (Or.inl h)]
  exact ⟨_, rfl⟩

/-- Flattening a journey with no steps contributes nothing. -/
lemma flatten_replicate_nil (n : Nat) :
    (List.replicate n ([] : List Step)).flatten = [] := by
  induction n with
  | zero => rfl
  | succ k ih => simp [ih]

/-- With the always-401 zero-retry executor, a nonempty step list runs only
    its first step and reports termination. -/
lemma runSteps401_cons (s : Step) (srest : List Step) (st : SessState)
    (h : ∀ x ∈ s :: srest, x.method = "GET") :
    ∃ st1, runSteps exec401 (s :: srest) st = .ok (st1, true, [s]) := by
  obtain ⟨st1, hfirst⟩ := exec401_terminates s st (h s (List.mem_cons_self s srest))
  refine ⟨st1, ?_⟩
  unfold runSteps
  rw [hfirst]
  simp

/-- An empty step list leaves any number of repetitions without effect. -/
lemma runRepeat401_nilSteps :
    ∀ (n : Nat) (st : SessState),
      runRepeat exec401 [] n st = .ok (st, false, []) := by
  intro n
  induction n with
  | zero => intro st; rfl
  | succ k ih =>
    intro st
    simp [runRepeat, runSteps, ih]

/-- With the always-401 zero-retry executor, a positively repeated nonempty
    step list also runs only its first step. -/
lemma runRepeat401_consSteps (s : Step) (srest : List Step) (k : Nat)
    (st : SessState) (h : ∀ x ∈ s :: srest, x.method = "GET") :
    ∃ st1, runRepeat exec401 (s :: srest) (k + 1) st = .ok (st1, true, [s]) := by
  obtain ⟨st1, hone⟩ := runSteps401_cons s srest st h
  refine ⟨st1, ?_⟩
  unfold runRepeat
  rw [hone]

/-- With the always-401 zero-retry executor, the whole journey list executes
    exactly the first step of the flattened journey plan (or nothing when
    every journey expands to no steps): after the first `terminate_journey`
    no later repetition, step or journey runs. -/
lemma execute_user_journey401 (journeys : List Journey)
    (h : ∀ j ∈ journeys, ∀ s ∈ j.steps, s.method = "GET") :
    ∀ st, ∃ st1, execute_user_journey exec401 journeys st =
      .ok (st1, (flatJourneySteps journeys).take 1) := by
  induction journeys with
  | nil => intro st; exact ⟨st, rfl⟩
  | cons j rest ih =>
    intro st
    have hj : ∀ s ∈ j.steps, s.method = "GET" := h j (List.mem_cons_self j rest)
    have hrest : ∀ j2 ∈ rest, ∀ s ∈ j2.steps, s.method = "GET" :=
      fun j2 hj2 => h j2 (List.mem_cons_of_mem j hj2)
    rcases hs : j.steps with _ | ⟨s, srest⟩
    · obtain ⟨st2, htl⟩ := ih hrest st
      refine ⟨st2, ?_⟩
      unfold execute_user_journey
      rw [hs, runRepeat401_nilSteps j.repeatCount.toNat st]
      simp [htl, flatJourneySteps, hs, flatten_replicate_nil]
    · rcases hn : j.repeatCount.toNat with _ | k
      · obtain ⟨st2, htl⟩ := ih hrest st
        refine ⟨st2, ?_⟩
        unfold execute_user_journey
        rw [hn]
        simp [runRepeat, htl, flatJourneySteps, hn]
      · obtain ⟨st1, hrep⟩ := runRepeat401_consSteps s srest k st (hs ▸ hj)
        refine ⟨st1, ?_⟩
        unfold execute_user_journey
        rw [hs, hn, hrep]
        simp [flatJourneySteps, hs, hn, List.replicate_succ, List.flatten_cons,
          List.cons_append, List.take_succ_cons]

/-- C9: when a journey step's request returns HTTP 401 and retries are
    exhausted at the degradation decision (`retry_attempts = 0`, so attempt 0
    is already the last), the step executor returns `terminate_journey` via
    the auth_error classification; and the journey runner driven by that
    executor then runs no subsequent step of any remaining repetition or
    journey: its execution trace is exactly the first step of the flattened
    journey plan. -/
theorem C9_terminate_journey_stops_runner :
    (∀ (stp : Step) (st : SessState), stp.method = "GET" →
      strategyOf (execute_with_graceful_degradation oAlways401 "http://t" stp
        0 0 st) = some .terminate_journey) ∧
    (∀ (journeys : List Journey) (st : SessState),
      (∀ j ∈ journeys, ∀ s ∈ j.steps, s.method = "GET") →
      ∃ st1, execute_user_journey exec401 journeys st =
        .ok (st1, (flatJourneySteps journeys).take 1)) := by
  constructor
  · intro stp st h
    obtain ⟨st1, hs⟩ := exec401_terminates stp st h
    show strategyOf (exec401 stp st) = some .terminate_journey
    rw [hs]
    rfl
  · intro journeys st h
    exact execute_user_journey401 journeys h st

/-- Witness for C9: concrete two-journey plan, all steps `GET`, against the
    always-401 target with zero retries — only the very first step runs. -/
theorem C9_witness :
    (stepGET.method = "GET") ∧
    (∀ j ∈ c9Journeys, ∀ s ∈ j.steps, s.method = "GET") ∧
    strategyOf (execute_with_graceful_degradation oAlways401 "http://t" stepGET
      0 0 SessState.empty) = some .terminate_journey ∧
    ∃ st1, execute_user_journey exec401 c9Journeys SessState.empty =
      .ok (st1, (flatJourneySteps c9Journeys).take 1) :=
  ⟨rfl, by decide,
    C9_terminate_journey_stops_runner.1 stepGET SessState.empty rfl,
    C9_terminate_journey_stops_runner.2 c9Journeys SessState.empty (by decide)⟩

/-- A successful table lookup returns a directive whose prefix the line
    actually starts with. -/
lemma lookupDirective_found :
    ∀ (t : List (String × Directive)) (line : String) (d : Directive),
      lookupDirective t line = d → d ≠ .unknown →
      ∃ p, (p, d) ∈ t ∧ pyStartsWith line p = true := by
  intro t
  induction t with
  | nil =>
    intro line d hd hne
    exact absurd hd.symm hne
  | cons pd rest ih =>
    intro line d hd hne
    obtain ⟨p, d1⟩ := pd
    unfold lookupDirective at hd
    split_ifs at hd with hp
    · exact ⟨p, by simp [hd], hp⟩
    · obtain ⟨q, hq, hqp⟩ := ih line d hd hne
      exact ⟨q, List.mem_cons_of_mem _ hq, hqp⟩

/-- Only a line with the `users:` prefix dispatches to the `users`
    directive. -/
lemma directiveOf_users (line : String) (hd : directiveOf line = .users) :
    pyStartsWith line "users:" = true := by
  unfold directiveOf at hd
  split_ifs at hd with hb
  obtain ⟨p, hmem, hp⟩ := lookupDirective_found directiveTable line .users hd (by decide)
  simp [directiveTable] at hmem
  rw [← hmem]
  exact hp

/-- Only a line with the `duration:` prefix dispatches to the `duration`
    directive. -/
lemma directiveOf_duration (line : String) (hd : directiveOf line = .duration) :
    pyStartsWith line "duration:" = true := by
  unfold directiveOf at hd
  split_ifs at hd with hb
  obtain ⟨p, hmem, hp⟩ := lookupDirective_found directiveTable line .duration hd (by decide)
  simp [directiveTable] at hmem
  rw [← hmem]
  exact hp

/-- A parse-loop iteration on a (stripped) line that is not a `users:`
    directive leaves the population unchanged. -/
lemma parseLineStripped_num_users (st : ParseState) (line : String)
    (h : pyStartsWith line "users:" = false) :
    (parseLineStripped st line).num_users = st.num_users := by
  unfold parseLineStripped
  cases hd : directiveOf line <;>
    first
      | rfl
      | exact absurd (directiveOf_users line hd) (by simp [h])
      | (show (handle_pattern st line).num_users = st.num_users
         unfold handle_pattern
         split <;> rfl)
      | (show (handle_repeat st line).num_users = st.num_users
         unfold handle_repeat
         rcases st.current with _ | j <;> rfl)
      | (show (handle_if st line).num_users = st.num_users
         unfold handle_if
         rcases st.current with _ | j <;> rfl)
      | (show (handle_step st line).num_users = st.num_users
         unfold handle_step
         rcases parseStepLine line with _ | ⟨m, p, pl⟩ <;> rfl)

/-- A parse-loop iteration on a (stripped) line that is not a `duration:`
    directive leaves the test duration unchanged. -/
lemma parseLineStripped_test_duration (st : ParseState) (line : String)
    (h : pyStartsWith line "duration:" = false) :
    (parseLineStripped st line).test_duration = st.test_duration := by
  unfold parseLineStripped
  cases hd : directiveOf line <;>
    first
      | rfl
      | exact absurd (directiveOf_duration line hd) (by simp [h])
      | (show (handle_pattern st line).test_duration = st.test_duration
         unfold handle_pattern
         split <;> rfl)
      | (show (handle_repeat st line).test_duration = st.test_duration
         unfold handle_repeat
         rcases st.current with _ | j <;> rfl)
      | (show (handle_if st line).test_duration = st.test_duration
         unfold handle_if
         rcases st.current with _ | j <;> rfl)
      | (show (handle_step st line).test_duration = st.test_duration
         unfold handle_step
         rcases parseStepLine line with _ | ⟨m, p, pl⟩ <;> rfl)

/-- Folding the parse loop over lines none of which is a `users:` directive
    preserves the population. -/
lemma foldl_num_users (lines : List String) :
    ∀ st : ParseState,
      (∀ l ∈ lines, pyStartsWith (pyStrip l) "users:" = false) →
      (lines.foldl parseLine st).num_users = st.num_users := by
  induction lines with
  | nil => intro st _; rfl
  | cons l rest ih =>
    intro st h
    simp only [List.foldl_cons]
    rw [ih (parseLine st l) (fun x hx => h x (List.mem_cons_of_mem l hx))]
    exact parseLineStripped_num_users st (pyStrip l) (h l (List.mem_cons_self l rest))

/-- Folding the parse loop over lines none of which is a `duration:`
    directive preserves the test duration. -/
lemma foldl_test_duration (lines : List String) :
    ∀ st : ParseState,
      (∀ l ∈ lines, pyStartsWith (pyStrip l) "duration:" = false) →
      (lines.foldl parseLine st).test_duration = st.test_duration := by
  induction lines with
  | nil => intro st _; rfl
  | cons l rest ih =>
    intro st h
    simp only [List.foldl_cons]
    rw [ih (parseLine st l) (fun x hx => h x (List.mem_cons_of_mem l hx))]
    exact parseLineStripped_test_duration st (pyStrip l) (h l (List.mem_cons_self l rest))

/-- C6 counterexample: `parse_dsl` accepts `users: -1` and `duration: 0`
    verbatim, so the returned plan can have a negative population and a
    non-positive duration. -/
theorem C6_counterexample :
    (parse_dsl "users: -1\nduration: 0").num_users = -1 ∧
    (parse_dsl "users: -1\nduration: 0").test_duration = 0 ∧
    ¬ ((0 : Int) ≤ -1) ∧ ¬ ((0 : Int) < 0) :=
  ⟨by decide, by decide, by decide, by decide⟩

/-- C6 as amended: `parse_dsl` is a total function — it returns a plan for
    every input string (malformed directives and steps only warn or fall back
    to defaults, as on the junk script below) — and population and duration
    keep their defaults 1 and 60 on every script with no `users:`/`duration:`
    directive; but a script can set the population negative or the duration
    to zero, so `population ≥ 0` and `duration > 0` do not hold in general. -/
theorem C6_amended_thm :
    (∀ s : String,
      (∀ l ∈ pySplitlines s, pyStartsWith (pyStrip l) "users:" = false ∧
        pyStartsWith (pyStrip l) "duration:" = false) →
      (parse_dsl s).num_users = 1 ∧ (parse_dsl s).test_duration = 60) ∧
    (parse_dsl "users: -1\nduration: 0").num_users = -1 ∧
    (parse_dsl "users: -1\nduration: 0").test_duration = 0 ∧
    parse_dsl c6Junk =
      { num_users := 1, test_duration := 60, workload_pattern := "steady",
        pattern_config := some {}, steps := [], user_journey := [] } := by
  refine ⟨?_, by decide, by decide, by decide⟩
  intro s h
  unfold parse_dsl
  split_ifs with hE
  · exact ⟨rfl, rfl⟩
  · exact ⟨foldl_num_users (pySplitlines s) {} (fun l hl => (h l hl).1),
      foldl_test_duration (pySplitlines s) {} (fun l hl => (h l hl).2)⟩

/-- Witness for C6 at a script with neither directive. -/
theorem C6_witness :
    (∀ l ∈ pySplitlines "pattern: burst\n- GET /a",
      pyStartsWith (pyStrip l) "users:" = false ∧
      pyStartsWith (pyStrip l) "duration:" = false) ∧
    ((parse_dsl "pattern: burst\n- GET /a").num_users = 1 ∧
      (parse_dsl "pattern: burst\n- GET /a").test_duration = 60) :=
  ⟨by decide, C6_amended_thm.1 "pattern: burst\n- GET /a" (by decide)⟩
